import Mathlib

/-!
Shallow embedding of the scoring / aggregation / diversity core of the
website-trust-analyzer repository (src/src/analyzers/scoring.py and
src/src/analyzers/social_proof.py), together with proofs settling the
specification claims about it.

Python dict values are modelled by the inductive type `PyVal`; `dict.get`
with a default is `dictGet`; the attribute call `v.get(key)` (which raises
`AttributeError` when `v` is not a mapping) is `PyVal.get`, returning
`Except`. Python truthiness is `PyVal.truthy`. Numeric scores are `ℚ`
(every arithmetic step in the source is exact on small integers, and the
single division `total/70*100` is exactly representable questions aside;
no comparison in the source is close enough to a binade boundary for the
float/rational distinction to change a branch).
-/

/-- A Python value, as far as the scoring core inspects one. -/
inductive PyVal where
  | none
  | bool (b : Bool)
  | int (n : Int)
  | str (s : String)
  | dict (entries : List (String × PyVal))
  | list (elems : List PyVal)

/-- `d.get(key, default)` on a Python dict, modelled as first-match lookup
in an association list. -/
def dictGet (entries : List (String × PyVal)) (key : String) (default : PyVal) : PyVal :=
  match entries.find? (fun p => p.fst == key) with
  | some p => p.snd
  | Option.none => default

/-- The attribute call `v.get(key, default)`: succeeds only when `v` is a
dict, otherwise Python raises `AttributeError`. -/
def PyVal.get : PyVal → String → PyVal → Except String PyVal
  | PyVal.dict es, key, default => Except.ok (dictGet es key default)
  | _, _, _ => Except.error "AttributeError"

/-- Python truthiness of a value (`if v:`). -/
def PyVal.truthy : PyVal → Bool
  | PyVal.none => false
  | PyVal.bool b => b
  | PyVal.int n => n != 0
  | PyVal.str s => !s.isEmpty
  | PyVal.dict es => !es.isEmpty
  | PyVal.list xs => !xs.isEmpty

/-- Python `v == s` for a string literal `s`: only an equal string compares
equal (no other built-in type equals a str). -/
def PyVal.eqStr : PyVal → String → Bool
  | PyVal.str t, s => t == s
  | _, _ => false

/-- Whether a value is a mapping (has the `.get` attribute). -/
def PyVal.isDict : PyVal → Bool
  | PyVal.dict _ => true
  | _ => false

/-- `ScoreComponent` dataclass from scoring.py. `details` keeps the dict's
insertion order as an association list of strings (every value the source
stores is a string). -/
structure ScoreComponent where
  score : ℚ
  max_score : ℚ
  details : List (String × String)
  recommendations : List String
deriving DecidableEq, Repr

/-- The dict returned by `TrustScore.calculate_total_score`. -/
structure TrustScoreResult where
  total_score : ℚ
  trust_level : String
  components : List (String × ScoreComponent)
  recommendations : List String
deriving DecidableEq, Repr

/-- `TrustScore.calculate_technical_score`. The two nested `.get` attribute
calls can raise, hence the `Except` codomain; everything else is exact
translation, statement by statement. -/
def calculate_technical_score (security_data : List (String × PyVal)) :
    Except String ScoreComponent := do
  -- SSL/HTTPS (5 points)
  let ssl_certificate := dictGet security_data "ssl_certificate" (PyVal.dict [])
  let status ← ssl_certificate.get "status" PyVal.none
  let sslValid := status.eqStr "valid"
  let score1 : ℚ := if sslValid then 5 else 0
  let details1 : List (String × String) :=
    if sslValid then [("ssl", "Valid SSL certificate")]
    else [("ssl", "Missing or invalid SSL certificate")]
  let recs1 : List String :=
    if sslValid then [] else ["Implement HTTPS with a valid SSL certificate"]
  -- Security Headers (5 points)
  let headers := dictGet security_data "security_headers" (PyVal.dict [])
  let hsts ← headers.get "has_hsts" PyVal.none
  let xframe ← headers.get "has_xframe" PyVal.none
  let contentSecurity ← headers.get "has_content_security" PyVal.none
  let xssProtection ← headers.get "has_xss_protection" PyVal.none
  let header_score : ℕ :=
    (if hsts.truthy then 1 else 0) + (if xframe.truthy then 1 else 0) +
    (if contentSecurity.truthy then 1 else 0) + (if xssProtection.truthy then 1 else 0)
  let details2 := details1 ++
    [("security_headers", "Implemented " ++ toString header_score ++ "/4 security headers")]
  let recs2 := recs1 ++
    (if header_score < 4 then ["Implement missing security headers"] else [])
  -- Domain factors (5 points) - placeholder in the source, added unconditionally
  Except.ok
    { score := score1 + (header_score : ℚ) + 5
      max_score := 15
      details := details2
      recommendations := recs2 }

/-- `TrustScore.calculate_review_score`. -/
def calculate_review_score (review_data : List (String × PyVal)) : ScoreComponent :=
  let has_reviews := (dictGet review_data "has_reviews" (PyVal.bool false)).truthy
  let recent_reviews := (dictGet review_data "recent_reviews" (PyVal.bool false)).truthy
  let diverse_reviews := (dictGet review_data "diverse_reviews" (PyVal.bool false)).truthy
  { score := (if has_reviews then (5 : ℚ) else 0) + (if recent_reviews then 5 else 0) +
      (if diverse_reviews then 5 else 0)
    max_score := 15
    details :=
      [("review_presence", if has_reviews then "Has user reviews" else "No user reviews found"),
       ("freshness", if recent_reviews then "Has recent reviews" else "No recent reviews"),
       ("diversity", if diverse_reviews then "Has diverse reviews" else "Limited review diversity")]
    recommendations :=
      (if has_reviews then [] else ["Implement a review system"]) ++
      (if recent_reviews then [] else ["Encourage recent reviews"]) ++
      (if diverse_reviews then [] else ["Encourage reviews from diverse sources"]) }

/-- `TrustScore.calculate_business_verification_score`. -/
def calculate_business_verification_score (business_data : List (String × PyVal)) :
    ScoreComponent :=
  let has_credentials := (dictGet business_data "has_credentials" (PyVal.bool false)).truthy
  let contact_verified := (dictGet business_data "contact_verified" (PyVal.bool false)).truthy
  { score := (if has_credentials then (5 : ℚ) else 0) + (if contact_verified then 5 else 0)
    max_score := 10
    details :=
      [("credentials",
        if has_credentials then "Business credentials verified" else "Missing business credentials"),
       ("contact",
        if contact_verified then "Contact information verified"
        else "Contact information not verified")]
    recommendations :=
      (if has_credentials then [] else ["Add business verification credentials"]) ++
      (if contact_verified then [] else ["Add verified contact information"]) }

/-- `TrustScore.calculate_content_score`. -/
def calculate_content_score (content_data : List (String × PyVal)) : ScoreComponent :=
  let has_resources := (dictGet content_data "has_resources" (PyVal.bool false)).truthy
  let recent_content := (dictGet content_data "recent_content" (PyVal.bool false)).truthy
  let expert_content := (dictGet content_data "expert_content" (PyVal.bool false)).truthy
  { score := (if has_resources then (5 : ℚ) else 0) + (if recent_content then 5 else 0) +
      (if expert_content then 5 else 0)
    max_score := 15
    details :=
      [("resources",
        if has_resources then "Quality resources present" else "Missing or low-quality resources"),
       ("freshness", if recent_content then "Content is up to date" else "Content needs updating"),
       ("expertise", if expert_content then "Expert content present" else "Missing expert content")]
    recommendations :=
      (if has_resources then [] else ["Add high-quality resources and documentation"]) ++
      (if recent_content then [] else ["Update content regularly"]) ++
      (if expert_content then [] else ["Add expert-level content"]) }

/-- `TrustScore.calculate_transparency_score`. -/
def calculate_transparency_score (transparency_data : List (String × PyVal)) : ScoreComponent :=
  let has_privacy_policy :=
    (dictGet transparency_data "has_privacy_policy" (PyVal.bool false)).truthy
  let has_terms := (dictGet transparency_data "has_terms" (PyVal.bool false)).truthy
  let clear_pricing := (dictGet transparency_data "clear_pricing" (PyVal.bool false)).truthy
  { score := (if has_privacy_policy then (5 : ℚ) else 0) + (if has_terms then 5 else 0) +
      (if clear_pricing then 5 else 0)
    max_score := 15
    details :=
      [("privacy", if has_privacy_policy then "Clear privacy policy" else "Missing privacy policy"),
       ("terms",
        if has_terms then "Clear terms and conditions" else "Missing terms and conditions"),
       ("pricing", if clear_pricing then "Clear pricing information" else "Unclear pricing information")]
    recommendations :=
      (if has_privacy_policy then [] else ["Add clear privacy policy"]) ++
      (if has_terms then [] else ["Add clear terms and conditions"]) ++
      (if clear_pricing then [] else ["Add clear pricing information"]) }

/-- `TrustScore._categorize_trust_level` (leading underscore dropped for Lean). -/
def categorize_trust_level (score : ℚ) : String :=
  if score ≥ 90 then "Exceptional Trust"
  else if score ≥ 80 then "High Trust"
  else if score ≥ 70 then "Good Trust"
  else if score ≥ 60 then "Moderate Trust"
  else "Needs Improvement"

/-- `TrustScore.calculate_total_score`. The components dict keeps insertion
order; `total_score`/`max_possible` are the sums over the five components
in that order, normalisation and recommendation merging follow the source.
(In the source a zero `max_possible` would raise `ZeroDivisionError`; here
`max_possible` is provably `70`, so the `ℚ` division-by-zero convention is
never exercised.) -/
def calculate_total_score (security_data review_data business_data content_data
    transparency_data : List (String × PyVal)) : Except String TrustScoreResult := do
  let technical ← calculate_technical_score security_data
  let components : List (String × ScoreComponent) :=
    [("technical_security", technical),
     ("reviews_ratings", calculate_review_score review_data),
     ("business_verification", calculate_business_verification_score business_data),
     ("content_quality", calculate_content_score content_data),
     ("transparency", calculate_transparency_score transparency_data)]
  let total_score : ℚ := (components.map (fun c => c.snd.score)).sum
  let max_possible : ℚ := (components.map (fun c => c.snd.max_score)).sum
  let normalized_score := total_score / max_possible * 100
  let recommendations := (components.map (fun c => c.snd.recommendations)).flatten
  let trust_level := categorize_trust_level normalized_score
  Except.ok
    { total_score := normalized_score
      trust_level := trust_level
      components := components
      recommendations := recommendations }

/-! Projections out of the `Except`-valued entry points, used to state the
claims (the error case is mapped to sentinel values that no successful run
produces). -/

/-- Score of a scorer result, `-1` on `AttributeError`. -/
def okScore : Except String ScoreComponent → ℚ
  | Except.ok c => c.score
  | Except.error _ => -1

/-- `total_score` of an aggregation result, `-1` on `AttributeError`. -/
def okTotal : Except String TrustScoreResult → ℚ
  | Except.ok r => r.total_score
  | Except.error _ => -1

/-- `trust_level` of an aggregation result. -/
def okLevel : Except String TrustScoreResult → String
  | Except.ok r => r.trust_level
  | Except.error _ => "error"

/-- Merged recommendations of an aggregation result. -/
def okRecs : Except String TrustScoreResult → List String
  | Except.ok r => r.recommendations
  | Except.error _ => []

/-- Components dict of an aggregation result. -/
def okComponents : Except String TrustScoreResult → List (String × ScoreComponent)
  | Except.ok r => r.components
  | Except.error _ => []

/-- Score of the named component of an aggregation result, `-1` if absent. -/
def componentScore (e : Except String TrustScoreResult) (name : String) : ℚ :=
  match (okComponents e).find? (fun p => p.fst == name) with
  | some p => p.snd.score
  | Option.none => -1

/-! The well-formed boolean signal inputs. `Signals` fixes a value for each
boolean sub-check signal the five scorers read (SSL validity is carried as
the boolean "status equals valid"); the `mk*Data` builders produce exactly
the dict shapes the result mapper (`trust_analyzer.py`) and the sample
driver (`test_scoring.py`) hand to the scorers. -/

/-- One boolean per sub-check signal across the five categories. -/
structure Signals where
  ssl_valid : Bool
  hsts : Bool
  xframe : Bool
  content_security : Bool
  xss_protection : Bool
  has_reviews : Bool
  recent_reviews : Bool
  diverse_reviews : Bool
  has_credentials : Bool
  contact_verified : Bool
  has_resources : Bool
  recent_content : Bool
  expert_content : Bool
  has_privacy_policy : Bool
  has_terms : Bool
  clear_pricing : Bool
deriving DecidableEq, Repr

/-- The `security_data` dict for a `Signals` assignment. -/
def mkSecurityData (s : Signals) : List (String × PyVal) :=
  [("ssl_certificate",
    PyVal.dict [("status", PyVal.str (if s.ssl_valid then "valid" else "invalid"))]),
   ("security_headers",
    PyVal.dict [("has_hsts", PyVal.bool s.hsts),
                ("has_xframe", PyVal.bool s.xframe),
                ("has_content_security", PyVal.bool s.content_security),
                ("has_xss_protection", PyVal.bool s.xss_protection)])]

/-- The `review_data` dict for a `Signals` assignment. -/
def mkReviewData (s : Signals) : List (String × PyVal) :=
  [("has_reviews", PyVal.bool s.has_reviews),
   ("recent_reviews", PyVal.bool s.recent_reviews),
   ("diverse_reviews", PyVal.bool s.diverse_reviews)]

/-- The `business_data` dict for a `Signals` assignment. -/
def mkBusinessData (s : Signals) : List (String × PyVal) :=
  [("has_credentials", PyVal.bool s.has_credentials),
   ("contact_verified", PyVal.bool s.contact_verified)]

/-- The `content_data` dict for a `Signals` assignment. -/
def mkContentData (s : Signals) : List (String × PyVal) :=
  [("has_resources", PyVal.bool s.has_resources),
   ("recent_content", PyVal.bool s.recent_content),
   ("expert_content", PyVal.bool s.expert_content)]

/-- The `transparency_data` dict for a `Signals` assignment. -/
def mkTransparencyData (s : Signals) : List (String × PyVal) :=
  [("has_privacy_policy", PyVal.bool s.has_privacy_policy),
   ("has_terms", PyVal.bool s.has_terms),
   ("clear_pricing", PyVal.bool s.clear_pricing)]

/-- `calculate_total_score` on the five dicts built from one `Signals`
assignment. -/
def totalFromSignals (s : Signals) : Except String TrustScoreResult :=
  calculate_total_score (mkSecurityData s) (mkReviewData s) (mkBusinessData s)
    (mkContentData s) (mkTransparencyData s)

/-! Diversity calculator (`SocialProofAnalyzer._analyze_review_diversity`).
The network fetch and HTML parsing are the excluded collector layer; the
embedded core takes the page's anchor hrefs and script src URLs, exactly
the data the two `soup.find_all` loops iterate over. The catalog patterns
are Python regexes built only from literal characters, escaped
metacharacters and `.*`; such a pattern is compiled here to its list of
literal chunks, and `re.search` semantics is: the chunks occur in order,
with arbitrary text between consecutive chunks. -/

/-- An entry of `results['review_sources']`. -/
structure SourceInfo where
  platform : String
  url : String
  weight : ℕ
deriving DecidableEq, Repr

/-- The dict built by `_analyze_review_diversity` (the constant `status`
marker is omitted). -/
structure DiversityResult where
  review_sources : List SourceInfo
  diversity_score : ℚ
  total_sources : ℕ
  primary_sources : List String
  secondary_sources : List String
  embedded_widgets : List String
deriving DecidableEq, Repr

/-- One entry of the `review_platforms` catalog: domain, weight, and the
patterns compiled to literal-chunk lists. -/
structure PlatformInfo where
  domain : String
  weight : ℕ
  patterns : List (List String)
deriving DecidableEq, Repr

/-- The static `review_platforms` catalog of `SocialProofAnalyzer`, in
insertion order. -/
def review_platforms : List (String × PlatformInfo) :=
  [("trustpilot",
    { domain := "trustpilot.com", weight := 5,
      patterns := [["trustpilot.com/review"], ["trustpilot.com/evaluate"]] }),
   ("google",
    { domain := "google.com", weight := 4,
      patterns := [["google.com/business"], ["google.com/maps/place"], ["reviews?hl="]] }),
   ("yelp",
    { domain := "yelp.com", weight := 3,
      patterns := [["yelp.com/biz"], ["yelp.com/business"]] }),
   ("bbb",
    { domain := "bbb.org", weight := 4,
      patterns := [["bbb.org/business-reviews"], ["bbb.org/us/"]] }),
   ("sitejabber",
    { domain := "sitejabber.com", weight := 3,
      patterns := [["sitejabber.com/reviews"]] }),
   ("capterra",
    { domain := "capterra.com", weight := 3,
      patterns := [["capterra.com/reviews"], ["capterra.com/software"]] }),
   ("g2",
    { domain := "g2.com", weight := 4,
      patterns := [["g2.com/products"]] }),
   ("facebook",
    { domain := "facebook.com", weight := 2,
      patterns := [["facebook.com/", "/reviews"], ["facebook.com/pg/", "/reviews"]] })]

/-- The suffix of `hay` that follows its first occurrence of `needle`
(`Option.none` if `needle` does not occur). -/
def dropAfterFirst (needle : List Char) : List Char → Option (List Char)
  | [] => if needle.isEmpty then some [] else Option.none
  | c :: cs =>
    if needle.isPrefixOf (c :: cs) then some ((c :: cs).drop needle.length)
    else dropAfterFirst needle cs

/-- The chunks occur in `hay` in order, possibly with gaps (matching a
regex `chunk₀.*chunk₁.*…` under `re.search`, i.e. anywhere in the string;
taking the leftmost occurrence of each chunk in turn is complete). -/
def chunksSearch : List (List Char) → List Char → Bool
  | [], _ => true
  | chunk :: rest, hay =>
    match dropAfterFirst chunk hay with
    | some remaining => chunksSearch rest remaining
    | Option.none => false

/-- `re.search(pattern, s)` for a catalog pattern compiled to its literal
chunks. -/
def reSearch (pattern : List String) (s : String) : Bool :=
  chunksSearch (pattern.map String.toList) s.toList

/-- Python `needle in hay` substring containment. -/
def containsSub (needle hay : String) : Bool :=
  (dropAfterFirst needle.toList hay.toList).isSome

/-- Python `str.lower()` (character-wise ASCII lowering; every catalog
domain, pattern and URL handled here is ASCII). -/
def pyLower (s : String) : String :=
  String.mk (s.data.map Char.toLower)

/-- The `review_sources` entries one anchor href contributes: every
`(platform, pattern)` catalog pair is tried and every match appends an
entry (the source loop has no break, so one href can contribute several
entries, even for the same platform). -/
def linkSources (href : String) : List SourceInfo :=
  review_platforms.flatMap fun pi =>
    pi.snd.patterns.flatMap fun pattern =>
      if reSearch pattern href then
        [{ platform := pi.fst, url := href, weight := pi.snd.weight }]
      else []

/-- `SocialProofAnalyzer._analyze_review_diversity`, over the anchor hrefs
and script src URLs of the fetched page. Hrefs and srcs are lowercased as
in the source; the appends of the Python loops are modelled by
order-preserving list concatenation. -/
def analyze_review_diversity (hrefs script_srcs : List String) : DiversityResult :=
  let review_sources := hrefs.flatMap fun link => linkSources (pyLower link)
  let primary_sources :=
    (review_sources.filter (fun si => 4 ≤ si.weight)).map SourceInfo.platform
  let secondary_sources :=
    (review_sources.filter (fun si => si.weight < 4)).map SourceInfo.platform
  let embedded_widgets := script_srcs.flatMap fun script =>
    review_platforms.flatMap fun pi =>
      if containsSub pi.snd.domain (pyLower script) then [pi.fst] else []
  let total_sources := review_sources.length
  let total_weight := (review_sources.map SourceInfo.weight).sum
  let diversity_score : ℚ :=
    if 0 < total_sources then
      (min ((total_weight : ℚ) / 10) 1 * 10 + min ((total_sources : ℚ) / 5) 1 * 10) / 2
    else 0
  { review_sources := review_sources
    diversity_score := diversity_score
    total_sources := total_sources
    primary_sources := primary_sources
    secondary_sources := secondary_sources
    embedded_widgets := embedded_widgets }

/-- Anchor hrefs hitting three platforms of weights 5, 4 and 3 (the
diversity example of the spec). -/
def exampleHrefs : List String :=
  ["https://trustpilot.com/review/acme",
   "https://google.com/business/acme",
   "https://yelp.com/biz/acme"]

/-- Two distinct anchor hrefs matching the same primary platform. -/
def duplicateHrefs : List String :=
  ["https://trustpilot.com/review/acme-a",
   "https://trustpilot.com/review/acme-b"]

/-- Every sub-check signal false (the all-false/absent input of the spec). -/
def allFalseSignals : Signals :=
  { ssl_valid := false, hsts := false, xframe := false, content_security := false
    xss_protection := false, has_reviews := false, recent_reviews := false
    diverse_reviews := false, has_credentials := false, contact_verified := false
    has_resources := false, recent_content := false, expert_content := false
    has_privacy_policy := false, has_terms := false, clear_pricing := false }

/-- Every sub-check signal true except `clear_pricing` (the end-to-end
example input of the spec). -/
def allButPricingSignals : Signals :=
  { ssl_valid := true, hsts := true, xframe := true, content_security := true
    xss_protection := true, has_reviews := true, recent_reviews := true
    diverse_reviews := true, has_credentials := true, contact_verified := true
    has_resources := true, recent_content := true, expert_content := true
    has_privacy_policy := true, has_terms := true, clear_pricing := false }

/-! Closed forms of the component a scorer builds once the boolean outcome
of each check is fixed, used to reason about the scorers one check at a
time. `techComponent` repeats the body of `calculate_technical_score`
verbatim with the check outcomes as parameters; the `*Score` functions are
the score fields alone. -/

/-- The `ScoreComponent` built by `calculate_technical_score` as a function
of its five check outcomes. -/
def techComponent (sslValid hstsB xframeB contentSecurityB xssProtectionB : Bool) :
    ScoreComponent :=
  let score1 : ℚ := if sslValid then 5 else 0
  let details1 : List (String × String) :=
    if sslValid then [("ssl", "Valid SSL certificate")]
    else [("ssl", "Missing or invalid SSL certificate")]
  let recs1 : List String :=
    if sslValid then [] else ["Implement HTTPS with a valid SSL certificate"]
  let header_score : ℕ :=
    (if hstsB then 1 else 0) + (if xframeB then 1 else 0) +
    (if contentSecurityB then 1 else 0) + (if xssProtectionB then 1 else 0)
  { score := score1 + (header_score : ℚ) + 5
    max_score := 15
    details := details1 ++
      [("security_headers", "Implemented " ++ toString header_score ++ "/4 security headers")]
    recommendations := recs1 ++
      (if header_score < 4 then ["Implement missing security headers"] else []) }

/-- Technical-security score as a function of the five check outcomes. -/
def techScore (b0 b1 b2 b3 b4 : Bool) : ℚ :=
  (if b0 then 5 else 0) +
    (((if b1 then 1 else 0) + (if b2 then 1 else 0) +
      (if b3 then 1 else 0) + (if b4 then 1 else 0) : ℕ) : ℚ) + 5

/-- Score of a three-check 5-points-each category (reviews, content,
transparency) as a function of its check outcomes. -/
def threeCheckScore (a b c : Bool) : ℚ :=
  (if a then (5 : ℚ) else 0) + (if b then 5 else 0) + (if c then 5 else 0)

/-- Score of the two-check business-verification category. -/
def twoCheckScore (a b : Bool) : ℚ :=
  (if a then (5 : ℚ) else 0) + (if b then 5 else 0)

/-- Sum of the five category scores for a `Signals` assignment (the
aggregator's `total_score` before normalisation). -/
def rawScore (s : Signals) : ℚ :=
  techScore s.ssl_valid s.hsts s.xframe s.content_security s.xss_protection +
    threeCheckScore s.has_reviews s.recent_reviews s.diverse_reviews +
    twoCheckScore s.has_credentials s.contact_verified +
    threeCheckScore s.has_resources s.recent_content s.expert_content +
    threeCheckScore s.has_privacy_policy s.has_terms s.clear_pricing

/-- Names for the sixteen boolean sub-check signals. -/
inductive SignalIdx where
  | sslValid | hstsH | xframeH | contentSecurityH | xssProtectionH
  | hasReviews | recentReviews | diverseReviews
  | hasCredentials | contactVerified
  | hasResources | recentContent | expertContent
  | hasPrivacyPolicy | hasTerms | clearPricing
deriving DecidableEq, Repr

/-- Read one signal of a `Signals` assignment. -/
def getSignal (s : Signals) : SignalIdx → Bool
  | SignalIdx.sslValid => s.ssl_valid
  | SignalIdx.hstsH => s.hsts
  | SignalIdx.xframeH => s.xframe
  | SignalIdx.contentSecurityH => s.content_security
  | SignalIdx.xssProtectionH => s.xss_protection
  | SignalIdx.hasReviews => s.has_reviews
  | SignalIdx.recentReviews => s.recent_reviews
  | SignalIdx.diverseReviews => s.diverse_reviews
  | SignalIdx.hasCredentials => s.has_credentials
  | SignalIdx.contactVerified => s.contact_verified
  | SignalIdx.hasResources => s.has_resources
  | SignalIdx.recentContent => s.recent_content
  | SignalIdx.expertContent => s.expert_content
  | SignalIdx.hasPrivacyPolicy => s.has_privacy_policy
  | SignalIdx.hasTerms => s.has_terms
  | SignalIdx.clearPricing => s.clear_pricing

/-- Replace one signal of a `Signals` assignment. -/
def setSignal (s : Signals) (idx : SignalIdx) (v : Bool) : Signals :=
  match idx with
  | SignalIdx.sslValid => { s with ssl_valid := v }
  | SignalIdx.hstsH => { s with hsts := v }
  | SignalIdx.xframeH => { s with xframe := v }
  | SignalIdx.contentSecurityH => { s with content_security := v }
  | SignalIdx.xssProtectionH => { s with xss_protection := v }
  | SignalIdx.hasReviews => { s with has_reviews := v }
  | SignalIdx.recentReviews => { s with recent_reviews := v }
  | SignalIdx.diverseReviews => { s with diverse_reviews := v }
  | SignalIdx.hasCredentials => { s with has_credentials := v }
  | SignalIdx.contactVerified => { s with contact_verified := v }
  | SignalIdx.hasResources => { s with has_resources := v }
  | SignalIdx.recentContent => { s with recent_content := v }
  | SignalIdx.expertContent => { s with expert_content := v }
  | SignalIdx.hasPrivacyPolicy => { s with has_privacy_policy := v }
  | SignalIdx.hasTerms => { s with has_terms := v }
  | SignalIdx.clearPricing => { s with clear_pricing := v }

/-- A `security_data` dict whose `ssl_certificate` key holds a plain string
instead of a mapping (a malformed signal). -/
def malformedSecurityData : List (String × PyVal) :=
  [("ssl_certificate", PyVal.str "valid")]

/-- A `review_data` dict whose `has_reviews` key holds a truthy non-boolean
value (a malformed signal). -/
def malformedReviewData : List (String × PyVal) :=
  [("has_reviews", PyVal.str "maybe")]

/-! ### Helper lemmas -/

attribute [local semireducible] Rat.add Rat.mul Rat.inv

theorem exceptBind_ok {α β ε : Type} (a : α) (f : α → Except ε β) :
    (Except.ok a : Except ε α) >>= f = f a := rfl

theorem exceptBind_error {α β ε : Type} (e : ε) (f : α → Except ε β) :
    (Except.error e : Except ε α) >>= f = (Except.error e : Except ε β) := rfl

/-- `calculate_technical_score` succeeds exactly when the values found at
`ssl_certificate` and `security_headers` are mappings, and then builds
`techComponent` of the five check outcomes. -/
theorem calculate_technical_score_eq (d : List (String × PyVal)) :
    calculate_technical_score d =
      match dictGet d "ssl_certificate" (PyVal.dict []),
            dictGet d "security_headers" (PyVal.dict []) with
      | PyVal.dict ses, PyVal.dict hes =>
          Except.ok (techComponent ((dictGet ses "status" PyVal.none).eqStr "valid")
            (dictGet hes "has_hsts" PyVal.none).truthy
            (dictGet hes "has_xframe" PyVal.none).truthy
            (dictGet hes "has_content_security" PyVal.none).truthy
            (dictGet hes "has_xss_protection" PyVal.none).truthy)
      | _, _ => Except.error "AttributeError" := by
  cases hs : dictGet d "ssl_certificate" (PyVal.dict []) <;>
    cases hh : dictGet d "security_headers" (PyVal.dict []) <;>
      simp [calculate_technical_score, hs, hh, PyVal.get, techComponent,
        exceptBind_ok, exceptBind_error]

/-- A successful technical score is a `techComponent`. -/
theorem tech_ok_shape (d : List (String × PyVal)) (c : ScoreComponent)
    (h : calculate_technical_score d = Except.ok c) :
    ∃ b0 b1 b2 b3 b4, c = techComponent b0 b1 b2 b3 b4 := by
  rw [calculate_technical_score_eq] at h
  split at h
  case _ => exact ⟨_, _, _, _, _, (Except.ok.inj h).symm⟩
  case _ => exact Except.noConfusion h

theorem techComponent_score (b0 b1 b2 b3 b4 : Bool) :
    (techComponent b0 b1 b2 b3 b4).score = techScore b0 b1 b2 b3 b4 := rfl

theorem review_score_eq (d : List (String × PyVal)) :
    (calculate_review_score d).score =
      threeCheckScore (dictGet d "has_reviews" (PyVal.bool false)).truthy
        (dictGet d "recent_reviews" (PyVal.bool false)).truthy
        (dictGet d "diverse_reviews" (PyVal.bool false)).truthy := rfl

theorem business_score_eq (d : List (String × PyVal)) :
    (calculate_business_verification_score d).score =
      twoCheckScore (dictGet d "has_credentials" (PyVal.bool false)).truthy
        (dictGet d "contact_verified" (PyVal.bool false)).truthy := rfl

theorem content_score_eq (d : List (String × PyVal)) :
    (calculate_content_score d).score =
      threeCheckScore (dictGet d "has_resources" (PyVal.bool false)).truthy
        (dictGet d "recent_content" (PyVal.bool false)).truthy
        (dictGet d "expert_content" (PyVal.bool false)).truthy := rfl

theorem transparency_score_eq (d : List (String × PyVal)) :
    (calculate_transparency_score d).score =
      threeCheckScore (dictGet d "has_privacy_policy" (PyVal.bool false)).truthy
        (dictGet d "has_terms" (PyVal.bool false)).truthy
        (dictGet d "clear_pricing" (PyVal.bool false)).truthy := rfl

theorem eqStr_status (b : Bool) :
    (PyVal.str (if b then "valid" else "invalid")).eqStr "valid" = b := by
  cases b <;> rfl

/-- The normalised total over the boolean signal inputs. -/
theorem okTotal_signals (s : Signals) :
    okTotal (totalFromSignals s) = rawScore s / 70 * 100 := by
  simp [totalFromSignals, calculate_total_score, calculate_technical_score_eq,
    mkSecurityData, mkReviewData, mkBusinessData, mkContentData, mkTransparencyData,
    dictGet, okTotal, rawScore, techScore, threeCheckScore, twoCheckScore,
    calculate_review_score, calculate_business_verification_score,
    calculate_content_score, calculate_transparency_score,
    PyVal.truthy, eqStr_status, techComponent, exceptBind_ok]
  norm_num
  ring

theorem techScore_mono_ssl : ∀ b1 b2 b3 b4 : Bool,
    techScore false b1 b2 b3 b4 ≤ techScore true b1 b2 b3 b4 := by decide

theorem techScore_mono_h1 : ∀ b0 b2 b3 b4 : Bool,
    techScore b0 false b2 b3 b4 ≤ techScore b0 true b2 b3 b4 := by decide

theorem techScore_mono_h2 : ∀ b0 b1 b3 b4 : Bool,
    techScore b0 b1 false b3 b4 ≤ techScore b0 b1 true b3 b4 := by decide

theorem techScore_mono_h3 : ∀ b0 b1 b2 b4 : Bool,
    techScore b0 b1 b2 false b4 ≤ techScore b0 b1 b2 true b4 := by decide

theorem techScore_mono_h4 : ∀ b0 b1 b2 b3 : Bool,
    techScore b0 b1 b2 b3 false ≤ techScore b0 b1 b2 b3 true := by decide

theorem threeCheckScore_mono_1 : ∀ b c : Bool,
    threeCheckScore false b c ≤ threeCheckScore true b c := by decide

theorem threeCheckScore_mono_2 : ∀ a c : Bool,
    threeCheckScore a false c ≤ threeCheckScore a true c := by decide

theorem threeCheckScore_mono_3 : ∀ a b : Bool,
    threeCheckScore a b false ≤ threeCheckScore a b true := by decide

theorem twoCheckScore_mono_1 : ∀ b : Bool,
    twoCheckScore false b ≤ twoCheckScore true b := by decide

theorem twoCheckScore_mono_2 : ∀ a : Bool,
    twoCheckScore a false ≤ twoCheckScore a true := by decide

/-- Normalisation `x ↦ x / 70 * 100` is monotone. -/
theorem normStep {x y : ℚ} (h : x ≤ y) : x / 70 * 100 ≤ y / 70 * 100 := by gcongr

theorem review_max_eq (d : List (String × PyVal)) :
    (calculate_review_score d).max_score = 15 := rfl

theorem business_max_eq (d : List (String × PyVal)) :
    (calculate_business_verification_score d).max_score = 10 := rfl

theorem content_max_eq (d : List (String × PyVal)) :
    (calculate_content_score d).max_score = 15 := rfl

theorem transparency_max_eq (d : List (String × PyVal)) :
    (calculate_transparency_score d).max_score = 15 := rfl

theorem techComponent_max (b0 b1 b2 b3 b4 : Bool) :
    (techComponent b0 b1 b2 b3 b4).max_score = 15 := rfl

theorem techComponent_within_max : ∀ b0 b1 b2 b3 b4 : Bool,
    0 ≤ (techComponent b0 b1 b2 b3 b4).score ∧
      (techComponent b0 b1 b2 b3 b4).score ≤ (techComponent b0 b1 b2 b3 b4).max_score := by
  decide

theorem techComponent_cap : ∀ b0 b1 b2 b3 b4 : Bool,
    5 ≤ (techComponent b0 b1 b2 b3 b4).score ∧ (techComponent b0 b1 b2 b3 b4).score ≤ 14 ∧
      (techComponent b0 b1 b2 b3 b4).max_score = 15 ∧
      (techComponent b0 b1 b2 b3 b4).score ≠ (techComponent b0 b1 b2 b3 b4).max_score := by
  decide

theorem techComponent_score_bounds : ∀ b0 b1 b2 b3 b4 : Bool,
    5 ≤ (techComponent b0 b1 b2 b3 b4).score ∧ (techComponent b0 b1 b2 b3 b4).score ≤ 14 := by
  decide

theorem threeCheckScore_bounds : ∀ a b c : Bool,
    0 ≤ threeCheckScore a b c ∧ threeCheckScore a b c ≤ 15 := by decide

theorem twoCheckScore_bounds : ∀ a b : Bool,
    0 ≤ twoCheckScore a b ∧ twoCheckScore a b ≤ 10 := by decide

/-- Shape of a successful aggregation: the five components in insertion
order, the normalised total, the classified level and the merged
recommendations. -/
theorem total_ok_shape (a b c d e : List (String × PyVal)) (r : TrustScoreResult)
    (h : calculate_total_score a b c d e = Except.ok r) :
    ∃ tc, calculate_technical_score a = Except.ok tc ∧
      r.components =
        [("technical_security", tc),
         ("reviews_ratings", calculate_review_score b),
         ("business_verification", calculate_business_verification_score c),
         ("content_quality", calculate_content_score d),
         ("transparency", calculate_transparency_score e)] ∧
      r.total_score = ((r.components.map (fun p => p.snd.score)).sum) /
          ((r.components.map (fun p => p.snd.max_score)).sum) * 100 ∧
      r.trust_level = categorize_trust_level r.total_score ∧
      r.recommendations = (r.components.map (fun p => p.snd.recommendations)).flatten := by
  cases ht : calculate_technical_score a with
  | error err =>
      rw [calculate_total_score, ht, exceptBind_error] at h
      exact Except.noConfusion h
  | ok tc =>
      rw [calculate_total_score, ht, exceptBind_ok] at h
      have hr := (Except.ok.inj h).symm
      subst hr
      exact ⟨tc, rfl, rfl, rfl, rfl, rfl⟩

/-- Counting occurrences after a filter-then-map: one per list entry that
maps to the counted value and passes the filter. -/
theorem count_map_filter {α : Type} (f : α → String) (q : α → Bool) (p : String) :
    ∀ l : List α, ((l.filter q).map f).count p =
      (l.filter (fun a => f a == p && q a)).length := by
  intro l
  induction l with
  | nil => rfl
  | cons a t ih =>
      cases hq : q a <;> cases hf : f a == p <;>
        simp [List.filter_cons, hq, hf, List.count_cons, ih]

theorem exampleDiversity_eq :
    (analyze_review_diversity exampleHrefs []).diversity_score = 8 := by decide

theorem truthy_bool (b : Bool) : (PyVal.bool b).truthy = b := rfl

/-- Occurrences of a catalog platform contributed by one script src: one
exactly when the src contains the platform's domain (the catalog names are
pairwise distinct, so no other entry contributes the same name). -/
theorem count_one_script (p : String) (pi : PlatformInfo)
    (hmem : (p, pi) ∈ review_platforms) (s : String) :
    ((review_platforms.flatMap fun q =>
      if containsSub q.snd.domain (pyLower s) then [q.fst] else []).count p) =
      (if containsSub pi.domain (pyLower s) then 1 else 0) := by
  fin_cases hmem <;>
    simp [review_platforms, List.count_append, apply_ite (List.count _),
      List.count_cons, List.count_nil]

/-- Occurrences of a catalog platform in the embedded-widget list: one per
script src containing the platform's domain. -/
theorem count_embedded (p : String) (pi : PlatformInfo)
    (hmem : (p, pi) ∈ review_platforms) (scripts : List String) :
    ((scripts.flatMap fun script => review_platforms.flatMap fun q =>
      if containsSub q.snd.domain (pyLower script) then [q.fst] else []).count p) =
      (scripts.filter (fun s => containsSub pi.domain (pyLower s))).length := by
  induction scripts with
  | nil => rfl
  | cons s t ih =>
      rw [List.flatMap_cons, List.count_append, count_one_script p pi hmem s,
        List.filter_cons]
      cases hc : containsSub pi.domain (pyLower s)
      · simp [ih]
      · simp [ih]
        omega

/-! ### Claims -/

/-- Claim C1, counterexample: on the input with every boolean sub-check
true except `clear_pricing` (valid SSL, 4/4 headers), the technical
component score is not 15 and the normalised total is not `65/70*100`
(the headers contribute at most 4 of their advertised 5 points, so the
technical component reaches only 14 and the total only 64). -/
theorem c1_end_to_end_counterexample :
    componentScore (totalFromSignals allButPricingSignals) "technical_security" ≠ 15 ∧
    okTotal (totalFromSignals allButPricingSignals) ≠ 65 / 70 * 100 := by
  decide

/-- Claim C1, amended: on the input with every boolean sub-check true
except `clear_pricing`, `calculate_total_score` returns component scores
technical=14, reviews=15, business=10, content=15, transparency=10, raw
total 64 of 70, normalised total `64/70*100` (≈91.43), trust level
"Exceptional Trust", and exactly the one recommendation "Add clear
pricing information". -/
theorem c1_end_to_end_amended :
    componentScore (totalFromSignals allButPricingSignals) "technical_security" = 14 ∧
    componentScore (totalFromSignals allButPricingSignals) "reviews_ratings" = 15 ∧
    componentScore (totalFromSignals allButPricingSignals) "business_verification" = 10 ∧
    componentScore (totalFromSignals allButPricingSignals) "content_quality" = 15 ∧
    componentScore (totalFromSignals allButPricingSignals) "transparency" = 10 ∧
    ((okComponents (totalFromSignals allButPricingSignals)).map (fun p => p.snd.score)).sum
      = 64 ∧
    ((okComponents (totalFromSignals allButPricingSignals)).map
      (fun p => p.snd.max_score)).sum = 70 ∧
    okTotal (totalFromSignals allButPricingSignals) = 64 / 70 * 100 ∧
    okLevel (totalFromSignals allButPricingSignals) = "Exceptional Trust" ∧
    okRecs (totalFromSignals allButPricingSignals) = ["Add clear pricing information"] := by
  decide

/-- Claim C2: each of the five category scorers keeps its score between 0
and its `max_score`, for every input dict (for the technical scorer, on
every input on which it returns at all). -/
theorem c2_scores_within_bounds :
    (∀ d c, calculate_technical_score d = Except.ok c →
      0 ≤ c.score ∧ c.score ≤ c.max_score) ∧
    (∀ d, 0 ≤ (calculate_review_score d).score ∧
      (calculate_review_score d).score ≤ (calculate_review_score d).max_score) ∧
    (∀ d, 0 ≤ (calculate_business_verification_score d).score ∧
      (calculate_business_verification_score d).score ≤
        (calculate_business_verification_score d).max_score) ∧
    (∀ d, 0 ≤ (calculate_content_score d).score ∧
      (calculate_content_score d).score ≤ (calculate_content_score d).max_score) ∧
    (∀ d, 0 ≤ (calculate_transparency_score d).score ∧
      (calculate_transparency_score d).score ≤ (calculate_transparency_score d).max_score) := by
  refine ⟨?_, ?_, ?_, ?_, ?_⟩
  · intro d c h
    obtain ⟨b0, b1, b2, b3, b4, rfl⟩ := tech_ok_shape d c h
    exact techComponent_within_max b0 b1 b2 b3 b4
  · intro d
    rw [review_score_eq, review_max_eq]
    exact threeCheckScore_bounds _ _ _
  · intro d
    rw [business_score_eq, business_max_eq]
    exact twoCheckScore_bounds _ _
  · intro d
    rw [content_score_eq, content_max_eq]
    exact threeCheckScore_bounds _ _ _
  · intro d
    rw [transparency_score_eq, transparency_max_eq]
    exact threeCheckScore_bounds _ _ _

/-- Claim C2, witness: the bounds instantiated on concrete inputs (the
empty dict for each scorer). -/
theorem c2_scores_within_bounds_witness :
    (0 ≤ (techComponent false false false false false).score ∧
      (techComponent false false false false false).score ≤
        (techComponent false false false false false).max_score) ∧
    (0 ≤ (calculate_review_score []).score ∧
      (calculate_review_score []).score ≤ (calculate_review_score []).max_score) ∧
    (0 ≤ (calculate_business_verification_score []).score ∧
      (calculate_business_verification_score []).score ≤
        (calculate_business_verification_score []).max_score) ∧
    (0 ≤ (calculate_content_score []).score ∧
      (calculate_content_score []).score ≤ (calculate_content_score []).max_score) ∧
    (0 ≤ (calculate_transparency_score []).score ∧
      (calculate_transparency_score []).score ≤ (calculate_transparency_score []).max_score) :=
  ⟨c2_scores_within_bounds.1 [] _ rfl, c2_scores_within_bounds.2.1 [],
    c2_scores_within_bounds.2.2.1 [], c2_scores_within_bounds.2.2.2.1 [],
    c2_scores_within_bounds.2.2.2.2 []⟩

/-- Claim C3: flipping any single boolean sub-check signal from false to
true, all other signals held fixed, never decreases the normalised
`total_score` of `calculate_total_score`. -/
theorem c3_single_flip_monotone (s : Signals) (idx : SignalIdx)
    (h : getSignal s idx = false) :
    okTotal (totalFromSignals s) ≤ okTotal (totalFromSignals (setSignal s idx true)) := by
  obtain ⟨b1, b2, b3, b4, b5, b6, b7, b8, b9, b10, b11, b12, b13, b14, b15, b16⟩ := s
  cases idx with
  | sslValid =>
      simp only [getSignal] at h; subst h
      simp only [okTotal_signals, setSignal, rawScore]
      apply normStep; gcongr
      exact techScore_mono_ssl _ _ _ _
  | hstsH =>
      simp only [getSignal] at h; subst h
      simp only [okTotal_signals, setSignal, rawScore]
      apply normStep; gcongr
      exact techScore_mono_h1 _ _ _ _
  | xframeH =>
      simp only [getSignal] at h; subst h
      simp only [okTotal_signals, setSignal, rawScore]
      apply normStep; gcongr
      exact techScore_mono_h2 _ _ _ _
  | contentSecurityH =>
      simp only [getSignal] at h; subst h
      simp only [okTotal_signals, setSignal, rawScore]
      apply normStep; gcongr
      exact techScore_mono_h3 _ _ _ _
  | xssProtectionH =>
      simp only [getSignal] at h; subst h
      simp only [okTotal_signals, setSignal, rawScore]
      apply normStep; gcongr
      exact techScore_mono_h4 _ _ _ _
  | hasReviews =>
      simp only [getSignal] at h; subst h
      simp only [okTotal_signals, setSignal, rawScore]
      apply normStep; gcongr
      exact threeCheckScore_mono_1 _ _
  | recentReviews =>
      simp only [getSignal] at h; subst h
      simp only [okTotal_signals, setSignal, rawScore]
      apply normStep; gcongr
      exact threeCheckScore_mono_2 _ _
  | diverseReviews =>
      simp only [getSignal] at h; subst h
      simp only [okTotal_signals, setSignal, rawScore]
      apply normStep; gcongr
      exact threeCheckScore_mono_3 _ _
  | hasCredentials =>
      simp only [getSignal] at h; subst h
      simp only [okTotal_signals, setSignal, rawScore]
      apply normStep; gcongr
      exact twoCheckScore_mono_1 _
  | contactVerified =>
      simp only [getSignal] at h; subst h
      simp only [okTotal_signals, setSignal, rawScore]
      apply normStep; gcongr
      exact twoCheckScore_mono_2 _
  | hasResources =>
      simp only [getSignal] at h; subst h
      simp only [okTotal_signals, setSignal, rawScore]
      apply normStep; gcongr
      exact threeCheckScore_mono_1 _ _
  | recentContent =>
      simp only [getSignal] at h; subst h
      simp only [okTotal_signals, setSignal, rawScore]
      apply normStep; gcongr
      exact threeCheckScore_mono_2 _ _
  | expertContent =>
      simp only [getSignal] at h; subst h
      simp only [okTotal_signals, setSignal, rawScore]
      apply normStep; gcongr
      exact threeCheckScore_mono_3 _ _
  | hasPrivacyPolicy =>
      simp only [getSignal] at h; subst h
      simp only [okTotal_signals, setSignal, rawScore]
      apply normStep; gcongr
      exact threeCheckScore_mono_1 _ _
  | hasTerms =>
      simp only [getSignal] at h; subst h
      simp only [okTotal_signals, setSignal, rawScore]
      apply normStep; gcongr
      exact threeCheckScore_mono_2 _ _
  | clearPricing =>
      simp only [getSignal] at h; subst h
      simp only [okTotal_signals, setSignal, rawScore]
      apply normStep; gcongr
      exact threeCheckScore_mono_3 _ _

/-- Claim C3, witness: flipping `has_reviews` on the all-false input does
not decrease the total. -/
theorem c3_single_flip_monotone_witness :
    getSignal allFalseSignals SignalIdx.hasReviews = false ∧
    okTotal (totalFromSignals allFalseSignals) ≤
      okTotal (totalFromSignals (setSignal allFalseSignals SignalIdx.hasReviews true)) :=
  ⟨rfl, c3_single_flip_monotone allFalseSignals SignalIdx.hasReviews rfl⟩

/-- Claim C4: the trust-level bands have inclusive lower bounds — ≥90
"Exceptional Trust", 80–90 "High Trust", 70–80 "Good Trust", 60–70
"Moderate Trust", below 60 "Needs Improvement" — and in particular 90.0,
89.99, 80.0 and 59.99 classify as stated. -/
theorem c4_trust_level_thresholds :
    (∀ q : ℚ, 90 ≤ q → categorize_trust_level q = "Exceptional Trust") ∧
    (∀ q : ℚ, 80 ≤ q → q < 90 → categorize_trust_level q = "High Trust") ∧
    (∀ q : ℚ, 70 ≤ q → q < 80 → categorize_trust_level q = "Good Trust") ∧
    (∀ q : ℚ, 60 ≤ q → q < 70 → categorize_trust_level q = "Moderate Trust") ∧
    (∀ q : ℚ, q < 60 → categorize_trust_level q = "Needs Improvement") ∧
    categorize_trust_level 90 = "Exceptional Trust" ∧
    categorize_trust_level 89.99 = "High Trust" ∧
    categorize_trust_level 80 = "High Trust" ∧
    categorize_trust_level 59.99 = "Needs Improvement" := by
  have h1 : ∀ q : ℚ, 90 ≤ q → categorize_trust_level q = "Exceptional Trust" := by
    intro q hq
    rw [categorize_trust_level, if_pos hq]
  have h2 : ∀ q : ℚ, 80 ≤ q → q < 90 → categorize_trust_level q = "High Trust" := by
    intro q ha hb
    rw [categorize_trust_level, if_neg (not_le.mpr hb), if_pos ha]
  have h3 : ∀ q : ℚ, 70 ≤ q → q < 80 → categorize_trust_level q = "Good Trust" := by
    intro q ha hb
    rw [categorize_trust_level, if_neg (not_le.mpr (by linarith)),
      if_neg (not_le.mpr hb), if_pos ha]
  have h4 : ∀ q : ℚ, 60 ≤ q → q < 70 → categorize_trust_level q = "Moderate Trust" := by
    intro q ha hb
    rw [categorize_trust_level, if_neg (not_le.mpr (by linarith)),
      if_neg (not_le.mpr (by linarith)), if_neg (not_le.mpr hb), if_pos ha]
  have h5 : ∀ q : ℚ, q < 60 → categorize_trust_level q = "Needs Improvement" := by
    intro q hb
    rw [categorize_trust_level, if_neg (not_le.mpr (by linarith)),
      if_neg (not_le.mpr (by linarith)), if_neg (not_le.mpr (by linarith)),
      if_neg (not_le.mpr hb)]
  exact ⟨h1, h2, h3, h4, h5, h1 90 le_rfl, h2 89.99 (by norm_num) (by norm_num),
    h2 80 le_rfl (by norm_num), h5 59.99 (by norm_num)⟩

/-- Claim C4, witness: the band rules instantiated at interior points. -/
theorem c4_trust_level_thresholds_witness :
    categorize_trust_level 95 = "Exceptional Trust" ∧
    categorize_trust_level 75 = "Good Trust" ∧
    categorize_trust_level 65 = "Moderate Trust" ∧
    categorize_trust_level 30 = "Needs Improvement" :=
  ⟨c4_trust_level_thresholds.1 95 (by norm_num),
    c4_trust_level_thresholds.2.2.1 75 (by norm_num) (by norm_num),
    c4_trust_level_thresholds.2.2.2.1 65 (by norm_num) (by norm_num),
    c4_trust_level_thresholds.2.2.2.2.1 30 (by norm_num)⟩

/-- Claim C5: the diversity score is 0 when no sources matched, is
otherwise `(min(total_weight/10,1)*10 + min(total_sources/5,1)*10)/2`
over the matched sources, always lies in [0,10], and equals 8.0 on three
matched sources of weights 5, 4, 3. -/
theorem c5_diversity_formula :
    (∀ hrefs scripts : List String,
      ((analyze_review_diversity hrefs scripts).total_sources = 0 →
        (analyze_review_diversity hrefs scripts).diversity_score = 0) ∧
      ((analyze_review_diversity hrefs scripts).total_sources ≠ 0 →
        (analyze_review_diversity hrefs scripts).diversity_score =
          (min (((((analyze_review_diversity hrefs scripts).review_sources.map
              SourceInfo.weight).sum : ℕ) : ℚ) / 10) 1 * 10 +
            min ((((analyze_review_diversity hrefs scripts).total_sources : ℕ) : ℚ) / 5) 1 *
              10) / 2) ∧
      0 ≤ (analyze_review_diversity hrefs scripts).diversity_score ∧
      (analyze_review_diversity hrefs scripts).diversity_score ≤ 10) ∧
    (analyze_review_diversity exampleHrefs []).diversity_score = 8 := by
  refine ⟨fun hrefs scripts => ?_, exampleDiversity_eq⟩
  dsimp only [analyze_review_diversity]
  refine ⟨fun h0 => ?_, fun hne => ?_, ?_, ?_⟩
  · simp [h0]
  · rw [if_pos (Nat.pos_of_ne_zero hne)]
  · split
    · have hA : (0:ℚ) ≤ min
          ((((hrefs.flatMap fun link => linkSources (pyLower link)).map
            SourceInfo.weight).sum : ℚ) / 10) 1 :=
        le_min (by positivity) (by norm_num)
      have hB : (0:ℚ) ≤ min
          (((hrefs.flatMap fun link => linkSources (pyLower link)).length : ℚ) / 5) 1 :=
        le_min (by positivity) (by norm_num)
      linarith
    · exact le_refl 0
  · split
    · have hA : min
          ((((hrefs.flatMap fun link => linkSources (pyLower link)).map
            SourceInfo.weight).sum : ℚ) / 10) 1 ≤ 1 := min_le_right _ _
      have hB : min
          (((hrefs.flatMap fun link => linkSources (pyLower link)).length : ℚ) / 5) 1 ≤ 1 :=
        min_le_right _ _
      linarith
    · norm_num

/-- Claim C5, witness: with no links at all the diversity score is 0. -/
theorem c5_diversity_formula_witness :
    (analyze_review_diversity [] []).diversity_score = 0 :=
  (c5_diversity_formula.1 [] []).1 rfl

/-- Claim C6: on the all-false input the five scorers leave only the
unconditional technical +5, so the raw total is 5 of 70, the normalised
total is `5/70*100` (≈7.14), the trust level is "Needs Improvement", and
the recommendations are the 13 per-failing-check texts in category
order. -/
theorem c6_all_false_example :
    okTotal (totalFromSignals allFalseSignals) = 5 / 70 * 100 ∧
    ((okComponents (totalFromSignals allFalseSignals)).map (fun p => p.snd.score)).sum = 5 ∧
    ((okComponents (totalFromSignals allFalseSignals)).map
      (fun p => p.snd.max_score)).sum = 70 ∧
    okLevel (totalFromSignals allFalseSignals) = "Needs Improvement" ∧
    okRecs (totalFromSignals allFalseSignals) =
      ["Implement HTTPS with a valid SSL certificate",
       "Implement missing security headers",
       "Implement a review system",
       "Encourage recent reviews",
       "Encourage reviews from diverse sources",
       "Add business verification credentials",
       "Add verified contact information",
       "Add high-quality resources and documentation",
       "Update content regularly",
       "Add expert-level content",
       "Add clear privacy policy",
       "Add clear terms and conditions",
       "Add clear pricing information"] ∧
    (okRecs (totalFromSignals allFalseSignals)).length = 13 := by
  decide

/-- Claim C7, counterexample: two distinct links to the same weight-5
platform put that platform into `primary_sources` twice — the
primary/secondary/embedded collections are appended per match, not
deduplicated, so they do not have set semantics. -/
theorem c7_set_semantics_counterexample :
    (analyze_review_diversity duplicateHrefs []).primary_sources =
      ["trustpilot", "trustpilot"] ∧
    ¬ (analyze_review_diversity duplicateHrefs []).primary_sources.count "trustpilot" ≤ 1 := by
  decide

/-- Claim C7, amended: `primary_sources`, `secondary_sources` and
`embedded_widgets` are lists, not sets — a platform appears in
`primary_sources` once per `review_sources` entry for it of weight ≥ 4,
in `secondary_sources` once per entry of weight < 4, and in
`embedded_widgets` once per script src whose lowercased text contains the
platform's catalog domain. -/
theorem c7_source_lists_amended (hrefs scripts : List String) (p : String) :
    (analyze_review_diversity hrefs scripts).primary_sources.count p =
      ((analyze_review_diversity hrefs scripts).review_sources.filter
        (fun si => si.platform == p && (4 ≤ si.weight))).length ∧
    (analyze_review_diversity hrefs scripts).secondary_sources.count p =
      ((analyze_review_diversity hrefs scripts).review_sources.filter
        (fun si => si.platform == p && (si.weight < 4))).length ∧
    (∀ pi : PlatformInfo, (p, pi) ∈ review_platforms →
      (analyze_review_diversity hrefs scripts).embedded_widgets.count p =
        (scripts.filter (fun s => containsSub pi.domain (pyLower s))).length) := by
  dsimp only [analyze_review_diversity]
  exact ⟨count_map_filter _ _ _ _, count_map_filter _ _ _ _,
    fun pi hmem => count_embedded p pi hmem scripts⟩

/-- Claim C8, counterexample: a `security_data` dict binding
`ssl_certificate` to a plain string makes `calculate_technical_score`
raise `AttributeError` rather than return, and a truthy non-boolean
signal value is scored as the positive case, not the negative one. -/
theorem c8_no_raise_counterexample :
    calculate_technical_score malformedSecurityData = Except.error "AttributeError" ∧
    (calculate_review_score malformedReviewData).score = 5 := by
  constructor
  · rfl
  · decide

/-- Claim C8, amended: the review, business, content and transparency
scorers return normally on every input dict (they are total functions
here), and every one of their checks awards its 5 points exactly when the
value found at its key is Python-truthy — whatever the value's type;
`calculate_technical_score` returns normally exactly when the values at
`ssl_certificate` and `security_headers` are mappings (absent keys
default to empty mappings), and raises `AttributeError` otherwise. -/
theorem c8_error_behaviour_amended :
    (∀ d, (∃ c, calculate_technical_score d = Except.ok c) ↔
      ((dictGet d "ssl_certificate" (PyVal.dict [])).isDict = true ∧
       (dictGet d "security_headers" (PyVal.dict [])).isDict = true)) ∧
    (∀ d, (calculate_review_score d).score =
      (if (dictGet d "has_reviews" (PyVal.bool false)).truthy then (5 : ℚ) else 0) +
      (if (dictGet d "recent_reviews" (PyVal.bool false)).truthy then 5 else 0) +
      (if (dictGet d "diverse_reviews" (PyVal.bool false)).truthy then 5 else 0)) ∧
    (∀ d, (calculate_business_verification_score d).score =
      (if (dictGet d "has_credentials" (PyVal.bool false)).truthy then (5 : ℚ) else 0) +
      (if (dictGet d "contact_verified" (PyVal.bool false)).truthy then 5 else 0)) ∧
    (∀ d, (calculate_content_score d).score =
      (if (dictGet d "has_resources" (PyVal.bool false)).truthy then (5 : ℚ) else 0) +
      (if (dictGet d "recent_content" (PyVal.bool false)).truthy then 5 else 0) +
      (if (dictGet d "expert_content" (PyVal.bool false)).truthy then 5 else 0)) ∧
    (∀ d, (calculate_transparency_score d).score =
      (if (dictGet d "has_privacy_policy" (PyVal.bool false)).truthy then (5 : ℚ) else 0) +
      (if (dictGet d "has_terms" (PyVal.bool false)).truthy then 5 else 0) +
      (if (dictGet d "clear_pricing" (PyVal.bool false)).truthy then 5 else 0)) := by
  refine ⟨?_, fun d => rfl, fun d => rfl, fun d => rfl, fun d => rfl⟩
  intro d
  rw [calculate_technical_score_eq]
  cases hs : dictGet d "ssl_certificate" (PyVal.dict []) <;>
    cases hh : dictGet d "security_headers" (PyVal.dict []) <;>
      simp [PyVal.isDict]

/-- Claim C8 amended, witness: a well-formed dict makes the technical
scorer return, and the truthy-check law instantiated on the dict binding
`has_reviews` to the truthy non-boolean string "maybe". -/
theorem c8_error_behaviour_amended_witness :
    (∃ c, calculate_technical_score
      [("ssl_certificate", PyVal.dict []), ("security_headers", PyVal.dict [])] =
        Except.ok c) ∧
    (calculate_review_score malformedReviewData).score =
      (if (dictGet malformedReviewData "has_reviews" (PyVal.bool false)).truthy
        then (5 : ℚ) else 0) +
      (if (dictGet malformedReviewData "recent_reviews" (PyVal.bool false)).truthy
        then 5 else 0) +
      (if (dictGet malformedReviewData "diverse_reviews" (PyVal.bool false)).truthy
        then 5 else 0) :=
  ⟨(c8_error_behaviour_amended.1 _).mpr ⟨rfl, rfl⟩,
    c8_error_behaviour_amended.2.1 malformedReviewData⟩

/-- Claim C9: whenever `calculate_total_score` returns, the sum of the
five components' `max_score` fields — the normalisation denominator — is
exactly 70 = 15+15+10+15+15, so the normalisation `total/70*100` never
divides by zero. -/
theorem c9_denominator_is_70 (a b c d e : List (String × PyVal)) (r : TrustScoreResult)
    (h : calculate_total_score a b c d e = Except.ok r) :
    ((r.components.map (fun p => p.snd.max_score)).sum = 70) ∧ (70 : ℚ) ≠ 0 ∧
    r.total_score = ((r.components.map (fun p => p.snd.score)).sum) / 70 * 100 := by
  obtain ⟨tc, hta, hcomp, htot, -, -⟩ := total_ok_shape a b c d e r h
  obtain ⟨b0, b1, b2, b3, b4, rfl⟩ := tech_ok_shape a tc hta
  have hmax : (r.components.map (fun p => p.snd.max_score)).sum = 70 := by
    rw [hcomp]
    simp only [List.map_cons, List.map_nil, List.sum_cons, List.sum_nil, add_zero,
      techComponent_max, review_max_eq, business_max_eq, content_max_eq, transparency_max_eq]
    norm_num
  refine ⟨hmax, by norm_num, ?_⟩
  rw [htot, hmax]

/-- Claim C9, witness: the denominator on the all-false boolean input. -/
theorem c9_denominator_is_70_witness :
    ((okComponents (totalFromSignals allFalseSignals)).map
      (fun p => p.snd.max_score)).sum = 70 := by
  obtain ⟨r, hr⟩ : ∃ r, totalFromSignals allFalseSignals = Except.ok r := ⟨_, rfl⟩
  rw [hr]
  exact (c9_denominator_is_70 _ _ _ _ _ r hr).1

/-- Claim C10: the technical score always carries the flat +5 and can
reach at most 14 = 5+4+5 of its declared 15, so whenever the aggregator
returns, the normalised total lies between `5/70*100` (≈7.14) and
`69/70*100` (≈98.57) and the technical component never attains its
`max_score`. -/
theorem c10_technical_cap_and_total_bounds :
    (∀ d c, calculate_technical_score d = Except.ok c →
      5 ≤ c.score ∧ c.score ≤ 14 ∧ c.max_score = 15 ∧ c.score ≠ c.max_score) ∧
    (∀ a b c d e r, calculate_total_score a b c d e = Except.ok r →
      5 / 70 * 100 ≤ r.total_score ∧ r.total_score ≤ 69 / 70 * 100) := by
  constructor
  · intro d c h
    obtain ⟨b0, b1, b2, b3, b4, rfl⟩ := tech_ok_shape d c h
    exact techComponent_cap b0 b1 b2 b3 b4
  · intro a b c d e r h
    obtain ⟨tc, hta, hcomp, htot, -, -⟩ := total_ok_shape a b c d e r h
    obtain ⟨b0, b1, b2, b3, b4, rfl⟩ := tech_ok_shape a tc hta
    rw [hcomp] at htot
    simp only [List.map_cons, List.map_nil, List.sum_cons, List.sum_nil, add_zero,
      techComponent_max, review_max_eq, business_max_eq, content_max_eq,
      transparency_max_eq] at htot
    have hmax : (15 : ℚ) + (15 + (10 + (15 + 15))) = 70 := by norm_num
    rw [hmax] at htot
    have h1 := techComponent_score_bounds b0 b1 b2 b3 b4
    have h2 : 0 ≤ (calculate_review_score b).score ∧ (calculate_review_score b).score ≤ 15 := by
      rw [review_score_eq]; exact threeCheckScore_bounds _ _ _
    have h3 : 0 ≤ (calculate_business_verification_score c).score ∧
        (calculate_business_verification_score c).score ≤ 10 := by
      rw [business_score_eq]; exact twoCheckScore_bounds _ _
    have h4 : 0 ≤ (calculate_content_score d).score ∧
        (calculate_content_score d).score ≤ 15 := by
      rw [content_score_eq]; exact threeCheckScore_bounds _ _ _
    have h5 : 0 ≤ (calculate_transparency_score e).score ∧
        (calculate_transparency_score e).score ≤ 15 := by
      rw [transparency_score_eq]; exact threeCheckScore_bounds _ _ _
    rw [htot]
    constructor
    · exact normStep (by linarith [h1.1, h2.1, h3.1, h4.1, h5.1])
    · exact normStep (by linarith [h1.2, h2.2, h3.2, h4.2, h5.2])

/-- Claim C10, witness: the cap and bounds on a concrete run (empty
technical input, all-false aggregate input). -/
theorem c10_technical_cap_and_total_bounds_witness :
    (5 ≤ (techComponent false false false false false).score ∧
      (techComponent false false false false false).score ≤ 14 ∧
      (techComponent false false false false false).max_score = 15 ∧
      (techComponent false false false false false).score ≠
        (techComponent false false false false false).max_score) ∧
    (5 / 70 * 100 ≤ okTotal (totalFromSignals allFalseSignals) ∧
      okTotal (totalFromSignals allFalseSignals) ≤ 69 / 70 * 100) := by
  constructor
  · exact c10_technical_cap_and_total_bounds.1 [] _ rfl
  · obtain ⟨r, hr⟩ : ∃ r, totalFromSignals allFalseSignals = Except.ok r := ⟨_, rfl⟩
    rw [hr]
    exact c10_technical_cap_and_total_bounds.2 _ _ _ _ _ r hr
